import Mathlib

/-!
Shallow embedding of `src/frontends/qt/libserver.h` from 22388o/bitbox-wallet-app:
the C bridge header connecting the Go backend to the Qt shell. The header itself
contains the four callback trampolines (`pushNotify`, `respond`, `notifyUser`,
`getSaveFilename`) and the `cppHeapFree` typedef; the bodies of the extern
functions (`serve`, `backendCall`, `handleURI`, `systemOpen`) live on the Go side
and are modelled from the spec where a claim needs them.
-/

namespace Libserver

/-- Embedding of a C string (`const char*` / `char*`): either the null pointer or a
pointed-to string value. -/
inductive CStr : Type
  | null : CStr
  | str : String → CStr
  deriving DecidableEq, Repr

/-- Embedding of a C function pointer with (semantic) argument type `α` and result
type `β`: the pointer may be null. -/
def CFunPtr (α β : Type) : Type :=
  Option (α → β)

/-- Semantics of calling through a possibly-null C function pointer, as the C
trampolines do without any null check: the call has a defined result exactly when
the pointer is non-null; calling a null pointer is undefined behavior, modelled as
`none`. -/
def CFunPtr.call {α β : Type} (f : CFunPtr α β) (a : α) : Option β :=
  match f with
  | none => none
  | some g => some (g a)

/-- Embedding of a heap pointer (`void*`): an abstract numeric buffer id. -/
def Ptr : Type := Nat

/-- Embeds `typedef void (*pushNotificationsCallback) (const char*)`. The C return
type is `void`; the type parameter `E` stands for the effect the shell-side
callback performs, the semantic value of one `void` invocation. -/
def pushNotificationsCallback (E : Type) : Type :=
  CFunPtr CStr E

/-- Embeds `typedef void (*responseCallback) (int, const char*)`; the two C
parameters are modelled as a pair. -/
def responseCallback (E : Type) : Type :=
  CFunPtr (Int × CStr) E

/-- Embeds `typedef void (*notifyUserCallback) (const char*)`. -/
def notifyUserCallback (E : Type) : Type :=
  CFunPtr CStr E

/-- Embeds `typedef char* (*getSaveFilenameCallback) (const char*)`: takes a
suggested filename, returns a chosen path or the null pointer (cancellation). -/
def getSaveFilenameCallback : Type :=
  CFunPtr CStr CStr

/-- Embeds `typedef void (*cppHeapFree) (void* ptr)`: the release capability for
buffers malloc'ed on the C++ side. -/
def cppHeapFree (E : Type) : Type :=
  CFunPtr Ptr E

/-- Embeds the trampoline
`static void pushNotify(pushNotificationsCallback f, const char* msg) { f(msg); }`:
one direct call through `f`, no null check, no other effect. -/
def pushNotify {E : Type} (f : pushNotificationsCallback E) (msg : CStr) : Option E :=
  CFunPtr.call f msg

/-- Embeds the trampoline
`static void respond(responseCallback f, int queryID, const char* msg) { f(queryID, msg); }`. -/
def respond {E : Type} (f : responseCallback E) (queryID : Int) (msg : CStr) : Option E :=
  CFunPtr.call f (queryID, msg)

/-- Embeds the trampoline
`static void notifyUser(notifyUserCallback f, const char* msg) { f(msg); }`. -/
def notifyUser {E : Type} (f : notifyUserCallback E) (msg : CStr) : Option E :=
  CFunPtr.call f msg

/-- Embeds the trampoline
`static char* getSaveFilename(getSaveFilenameCallback f, const char* suggestedfilename)
{ return f(suggestedfilename); }`: returns exactly the value the callback produced. -/
def getSaveFilename (f : getSaveFilenameCallback) (suggestedfilename : CStr) : Option CStr :=
  CFunPtr.call f suggestedfilename

/-- Observable state of the shell, recording the invocations it has received
through its callback slots (per-slot invocation logs). -/
structure ShellState : Type where
  pushLog : List CStr
  respondLog : List (Int × CStr)
  notifyLog : List CStr
  deriving DecidableEq, Repr

/-- The effect type a `void` shell callback has when invoked once: a transformer
of the shell's observable state. -/
def ShellEff : Type := ShellState → ShellState

/-- The shell state before any callback invocation. -/
def ShellState.init : ShellState := ⟨[], [], []⟩

/-- Modelled from the spec: the CallbackTable, "an immutable, process-lifetime
record of five capability slots — `freeNativeBuffer`, `pushNotification`,
`respondToQuery`, `notifyUser`, `requestSaveFilename`" (the record itself is
assembled on the Go side, outside `libserver.h`). -/
structure CallbackTable : Type where
  freeNativeBuffer : cppHeapFree ShellEff
  pushNotification : pushNotificationsCallback ShellEff
  respondToQuery : responseCallback ShellEff
  notifyUser : notifyUserCallback ShellEff
  requestSaveFilename : getSaveFilenameCallback

/-- Modelled from the spec: one outbound action of the backend's internal
processing (the backend loop lives on the Go side, outside `libserver.h`). -/
inductive BackendAction : Type
  | push : CStr → BackendAction
  | respondQ : Int → CStr → BackendAction
  | notify : CStr → BackendAction
  | saveDialog : CStr → BackendAction
  deriving DecidableEq, Repr

/-- Modelled from the spec: the backend performs one outbound action by invoking
the matching callback slot through the corresponding header trampoline. A `none`
result is the undefined behavior of calling a null slot. A `saveDialog` call whose
slot is wired returns a path or the null cancellation sentinel; either way the
call itself completes. -/
def runAction (t : CallbackTable) (a : BackendAction) (sh : ShellState) : Option ShellState :=
  match a with
  | BackendAction.push msg =>
    match pushNotify t.pushNotification msg with
    | none => none
    | some eff => some (eff sh)
  | BackendAction.respondQ queryID msg =>
    match respond t.respondToQuery queryID msg with
    | none => none
    | some eff => some (eff sh)
  | BackendAction.notify msg =>
    match notifyUser t.notifyUser msg with
    | none => none
    | some eff => some (eff sh)
  | BackendAction.saveDialog suggested =>
    match getSaveFilename t.requestSaveFilename suggested with
    | none => none
    | some _ => some sh

/-- Modelled from the spec: the backend's internal processing runs its outbound
actions in issue order, each through the callback table. -/
def runActions (t : CallbackTable) : List BackendAction → ShellState → Option ShellState
  | [], sh => some sh
  | a :: rest, sh =>
    match runAction t a sh with
    | none => none
    | some sh' => runActions t rest sh'

/-- Outcome of a completed `serve` call: the C-level return value (`void`,
i.e. `Unit`), whether the backend had terminated when `serve` returned, and the
shell state observed at that point (`none` marks undefined behavior from a null
slot). -/
structure ServeOutcome : Type where
  ret : Unit
  backendTerminated : Bool
  localeInstalled : CStr
  finalShell : Option ShellState

/-- Modelled from the spec: the extern Bridge Dispatcher entry point
`extern void serve(cppHeapFree cppHeapFreeFn, pushNotificationsCallback
pushNotificationsFn, responseCallback responseFn, notifyUserCallback notifyUserFn,
const char* preferredLocale, getSaveFilenameCallback getSaveFilenameFn)` —
its body lives on the Go side. It "constructs the CallbackTable, starts the
backend's internal processing, and blocks the calling thread until the backend
terminates". The six bridge parameters keep the header's names and order; the
trailing `backendScript`/`sh` arguments model the ambient backend environment and
shell state the extern body interacts with. -/
def serve (cppHeapFreeFn : cppHeapFree ShellEff)
    (pushNotificationsFn : pushNotificationsCallback ShellEff)
    (responseFn : responseCallback ShellEff)
    (notifyUserFn : notifyUserCallback ShellEff)
    (preferredLocale : CStr)
    (getSaveFilenameFn : getSaveFilenameCallback)
    (backendScript : List BackendAction) (sh : ShellState) : ServeOutcome :=
  let t : CallbackTable :=
    ⟨cppHeapFreeFn, pushNotificationsFn, responseFn, notifyUserFn, getSaveFilenameFn⟩
  ⟨(), true, preferredLocale, runActions t backendScript sh⟩

/-- Modelled from the spec: the Query Correlator state — the set of outstanding
query identifiers ("each identifier is used for at most one outstanding request").
The correlator lives in the Go backend, outside `libserver.h`. -/
structure Correlator : Type where
  outstanding : List Int
  deriving DecidableEq, Repr

/-- Modelled from the spec: the backend issues a query under a fresh identifier;
"the backend must not reuse an identifier until its prior response has been
delivered", so issuing an identifier that is still outstanding is refused. -/
def Correlator.issue (c : Correlator) (queryID : Int) : Option Correlator :=
  if queryID ∈ c.outstanding then none else some ⟨queryID :: c.outstanding⟩

/-- Result of the bridge's respond path: the response was delivered (with the
callback's effect and the correlator after completing that one query), or a
detected protocol violation (double response / unknown identifier), or the
undefined behavior of a null response slot. -/
inductive RespondResult (E : Type) : Type
  | delivered : E → Correlator → RespondResult E
  | protocolViolation : Int → RespondResult E
  | undefinedSlot : RespondResult E

/-- Modelled from the spec: the bridge's respond path. "`respondToQuery(queryID,
message)`: completes exactly one Query; invoking it twice for the same identifier,
or for an identifier never issued, is a protocol violation that must be detected
and reported, not silently ignored." A known identifier is removed from the
outstanding set and the response is forwarded through the header's `respond`
trampoline; an unknown identifier is reported as a protocol violation. -/
def respondToQuery {E : Type} (f : responseCallback E) (c : Correlator)
    (queryID : Int) (msg : CStr) : RespondResult E :=
  if queryID ∈ c.outstanding then
    match respond f queryID msg with
    | none => RespondResult.undefinedSlot
    | some eff => RespondResult.delivered eff ⟨c.outstanding.erase queryID⟩
  else
    RespondResult.protocolViolation queryID

/-- Modelled from the spec: the Allocator Boundary state for buffers allocated on
the backend's native heap — which buffer ids are currently live and which have
been released. -/
structure MemState : Type where
  live : List Nat
  freed : List Nat
  deriving DecidableEq, Repr

/-- The memory state before any cross-boundary buffer exists. -/
def MemState.init : MemState := ⟨[], []⟩

/-- Modelled from the spec: the events a cross-boundary buffer can undergo —
allocation on the native heap, release through the `freeNativeBuffer`
(`cppHeapFree`) capability, or release through the other side's default
deallocation primitive. -/
inductive MemEvent : Type
  | allocNative : Nat → MemEvent
  | releaseViaFreeNativeBuffer : Nat → MemEvent
  | releaseViaDefaultDealloc : Nat → MemEvent
  deriving DecidableEq, Repr

/-- Modelled from the spec: one step of the Allocator Boundary. Allocation
requires a fresh id; release through `freeNativeBuffer` requires the buffer to be
live (so a double free is invalid); release through the other side's default
deallocation is never valid ("never by the other side's native deallocation"). -/
def memStep (m : MemState) : MemEvent → Option MemState
  | MemEvent.allocNative b =>
    if b ∈ m.live ∨ b ∈ m.freed then none else some ⟨b :: m.live, m.freed⟩
  | MemEvent.releaseViaFreeNativeBuffer b =>
    if b ∈ m.live then some ⟨m.live.erase b, b :: m.freed⟩ else none
  | MemEvent.releaseViaDefaultDealloc _ => none

/-- Runs a trace of allocator-boundary events; `none` marks an invalid trace. -/
def runMem (m : MemState) : List MemEvent → Option MemState
  | [] => some m
  | e :: rest =>
    match memStep m e with
    | none => none
    | some m' => runMem m' rest

/-- Counts the release events of buffer `b` through the `freeNativeBuffer`
capability in a trace. -/
def relCount (tr : List MemEvent) (b : Nat) : Nat :=
  match tr with
  | [] => 0
  | e :: rest =>
    (if e = MemEvent.releaseViaFreeNativeBuffer b then 1 else 0) + relCount rest b

/-- Well-formedness of an Allocator Boundary state: no duplicate ids and no
buffer both live and freed. -/
def MemWf (m : MemState) : Prop :=
  m.live.Nodup ∧ m.freed.Nodup ∧ ∀ b : Nat, b ∈ m.live → b ∉ m.freed

/-- Indicator of a buffer having been released in state `m`. -/
def freedInd (m : MemState) (b : Nat) : Nat :=
  if b ∈ m.freed then 1 else 0

/-- Modelled from the spec: a successful save dialog transfers ownership of a
fresh native-heap buffer holding the chosen path to the backend; a null
(cancellation) result transfers nothing, so the memory state is unchanged. -/
def saveDialogAlloc (m : MemState) (b : Nat) (result : CStr) : Option MemState :=
  match result with
  | CStr.null => some m
  | CStr.str _ => memStep m (MemEvent.allocNative b)

/-- The shell-side push callback used to observe invocation order: it records the
message at the end of the invocation log. -/
def recordPush : CStr → List CStr → List CStr :=
  fun msg log => log ++ [msg]

/-- Delivers a sequence of push notifications in issue order, each through the
header's `pushNotify` trampoline; `none` marks the undefined behavior of a null
slot. -/
def deliverPushes (f : pushNotificationsCallback (List CStr → List CStr)) :
    List CStr → List CStr → Option (List CStr)
  | [], log => some log
  | msg :: rest, log =>
    match pushNotify f msg with
    | none => none
    | some eff => deliverPushes f rest (eff log)

/-- Startup failures of the Bridge Dispatcher, from the spec's error taxonomy:
calling `serve` again after it started, or an unusable callback slot. -/
inductive StartupError : Type
  | alreadyServing : StartupError
  | unusableSlot : StartupError
  deriving DecidableEq, Repr

/-- Modelled from the spec: process-wide dispatcher state — the session installed
by the first successful `serve`, if any. -/
structure ProcessState : Type where
  installed : Option (CallbackTable × CStr)

/-- Checks that every one of the five callback slots is wired (non-null). -/
def slotsUsable (t : CallbackTable) : Bool :=
  t.freeNativeBuffer.isSome && t.pushNotification.isSome && t.respondToQuery.isSome &&
    t.notifyUser.isSome && t.requestSaveFilename.isSome

/-- Modelled from the spec: the Bridge Dispatcher's guarded startup. "Must be
called exactly once per process"; a second call "fails fast with a reported
startup error rather than corrupting the first session's CallbackTable"; "if any
callback slot is unusable ... fail fast at startup ... reported as a single fatal
error before any event processing begins". On a valid first call it installs the
session and runs the backend's processing to termination. -/
def dispatcherServe (t : CallbackTable) (preferredLocale : CStr) (p : ProcessState)
    (backendScript : List BackendAction) (sh : ShellState) :
    Except StartupError Unit × ProcessState × ShellState :=
  match p.installed with
  | some _ => (Except.error StartupError.alreadyServing, p, sh)
  | none =>
    if slotsUsable t then
      (Except.ok (), ⟨some (t, preferredLocale)⟩, (runActions t backendScript sh).getD sh)
    else
      (Except.error StartupError.unusableSlot, p, sh)

/-- A bridge session after `serve` has started: the installed table, the locale
fixed at `serve` invocation, the shell's observation state, and the logs of the
inbound extern calls received by the backend. -/
structure Session : Type where
  table : CallbackTable
  locale : CStr
  shell : ShellState
  inboundCalls : List (Int × CStr)
  uris : List CStr
  openedPaths : List CStr

/-- Modelled from the spec: the session as constructed at `serve` invocation —
the locale is set exactly once, here. -/
def startSession (t : CallbackTable) (preferredLocale : CStr) (sh : ShellState) : Session :=
  ⟨t, preferredLocale, sh, [], [], []⟩

/-- Modelled from the spec: `extern void backendCall(int p0, char* p1)` —
shell-to-backend generic invocation, recorded by the backend (its body lives on
the Go side). -/
def backendCall (p0 : Int) (p1 : CStr) (s : Session) : Session :=
  ⟨s.table, s.locale, s.shell, s.inboundCalls ++ [(p0, p1)], s.uris, s.openedPaths⟩

/-- Modelled from the spec: `extern void handleURI(char* p0)` — dispatches an
externally-supplied URI into the backend (its body lives on the Go side). -/
def handleURI (p0 : CStr) (s : Session) : Session :=
  ⟨s.table, s.locale, s.shell, s.inboundCalls, s.uris ++ [p0], s.openedPaths⟩

/-- Modelled from the spec: `extern void systemOpen(char* p0)` — requests the
backend open a filesystem path (its body lives on the Go side). -/
def systemOpen (p0 : CStr) (s : Session) : Session :=
  ⟨s.table, s.locale, s.shell, s.inboundCalls, s.uris, s.openedPaths ++ [p0]⟩

/-- One bridge operation after `serve` has started: an outbound backend action
through the callback table, or one of the three inbound extern calls. -/
inductive BridgeOp : Type
  | backendAct : BackendAction → BridgeOp
  | inBackendCall : Int → CStr → BridgeOp
  | inHandleURI : CStr → BridgeOp
  | inSystemOpen : CStr → BridgeOp

/-- Applies one bridge operation to a session; `none` marks the undefined
behavior of invoking a null slot. -/
def applyOp (s : Session) : BridgeOp → Option Session
  | BridgeOp.backendAct a =>
    match runAction s.table a s.shell with
    | none => none
    | some sh' => some ⟨s.table, s.locale, sh', s.inboundCalls, s.uris, s.openedPaths⟩
  | BridgeOp.inBackendCall p0 p1 => some (backendCall p0 p1 s)
  | BridgeOp.inHandleURI p0 => some (handleURI p0 s)
  | BridgeOp.inSystemOpen p0 => some (systemOpen p0 s)

/-- Applies a sequence of bridge operations to a session. -/
def applyOps (s : Session) : List BridgeOp → Option Session
  | [] => some s
  | op :: rest =>
    match applyOp s op with
    | none => none
    | some s' => applyOps s' rest

/-- A fully wired sample callback table whose shell callbacks record each
invocation in the matching per-slot log. -/
def sampleTable : CallbackTable :=
  ⟨some (fun _ => fun sh => sh),
   some (fun msg => fun sh => ⟨sh.pushLog ++ [msg], sh.respondLog, sh.notifyLog⟩),
   some (fun pr => fun sh => ⟨sh.pushLog, sh.respondLog ++ [pr], sh.notifyLog⟩),
   some (fun msg => fun sh => ⟨sh.pushLog, sh.respondLog, sh.notifyLog ++ [msg]⟩),
   some (fun _ => CStr.null)⟩

/-- A callback table with every slot left unwired (all null). -/
def badTable : CallbackTable :=
  ⟨none, none, none, none, none⟩

end Libserver

namespace Libserver

theorem deliverPushes_record (msgs : List CStr) :
    ∀ log : List CStr, deliverPushes (some recordPush) msgs log = some (log ++ msgs) := by
  induction msgs with
  | nil => intro log; simp [deliverPushes]
  | cons m rest ih =>
    intro log
    have h1 : deliverPushes (some recordPush) (m :: rest) log =
        deliverPushes (some recordPush) rest (recordPush m log) := rfl
    rw [h1, ih (recordPush m log)]
    simp [recordPush]

theorem applyOp_locale (s : Session) (op : BridgeOp) (s' : Session)
    (h : applyOp s op = some s') : s'.locale = s.locale := by
  cases op with
  | backendAct a =>
    simp only [applyOp] at h
    cases hr : runAction s.table a s.shell with
    | none => rw [hr] at h; exact absurd h (by simp)
    | some sh' =>
      rw [hr] at h
      simp only [Option.some.injEq] at h
      rw [← h]
  | inBackendCall p0 p1 =>
    simp only [applyOp, Option.some.injEq] at h
    rw [← h]; rfl
  | inHandleURI p0 =>
    simp only [applyOp, Option.some.injEq] at h
    rw [← h]; rfl
  | inSystemOpen p0 =>
    simp only [applyOp, Option.some.injEq] at h
    rw [← h]; rfl

theorem applyOps_locale (ops : List BridgeOp) :
    ∀ s s' : Session, applyOps s ops = some s' → s'.locale = s.locale := by
  induction ops with
  | nil =>
    intro s s' h
    simp only [applyOps, Option.some.injEq] at h
    rw [← h]
  | cons op rest ih =>
    intro s s' h
    unfold applyOps at h
    cases ho : applyOp s op with
    | none => rw [ho] at h; exact absurd h (by simp)
    | some s1 =>
      rw [ho] at h
      rw [ih s1 s' h, applyOp_locale s op s1 ho]

theorem memStep_inv (m m' : MemState) (e : MemEvent) (hw : MemWf m)
    (h : memStep m e = some m') :
    MemWf m' ∧ (∀ b : Nat, e ≠ MemEvent.releaseViaDefaultDealloc b) ∧
      ∀ b : Nat,
        freedInd m b + (if e = MemEvent.releaseViaFreeNativeBuffer b then 1 else 0) =
          freedInd m' b := by
  obtain ⟨hln, hfn, hdis⟩ := hw
  cases e with
  | allocNative a =>
    simp only [memStep] at h
    by_cases hab : a ∈ m.live ∨ a ∈ m.freed
    · rw [if_pos hab] at h; exact absurd h (by simp)
    · rw [if_neg hab] at h
      push_neg at hab
      obtain ⟨hal, haf⟩ := hab
      simp only [Option.some.injEq] at h
      refine ⟨?_, by simp, ?_⟩
      · rw [← h]
        refine ⟨List.nodup_cons.mpr ⟨hal, hln⟩, hfn, ?_⟩
        intro b hb
        rcases List.mem_cons.mp hb with hba | hbl
        · rw [hba]; exact haf
        · exact hdis b hbl
      · intro b
        rw [← h]
        simp [freedInd]
  | releaseViaFreeNativeBuffer a =>
    simp only [memStep] at h
    by_cases hal : a ∈ m.live
    · rw [if_pos hal] at h
      simp only [Option.some.injEq] at h
      have haf : a ∉ m.freed := hdis a hal
      refine ⟨?_, by simp, ?_⟩
      · rw [← h]
        refine ⟨hln.erase a, List.nodup_cons.mpr ⟨haf, hfn⟩, ?_⟩
        intro b hb
        have hb' : b ≠ a ∧ b ∈ m.live := (hln.mem_erase_iff).mp hb
        simp only [List.mem_cons]
        push_neg
        exact ⟨hb'.1, hdis b hb'.2⟩
      · intro b
        rw [← h]
        by_cases hba : b = a
        · subst hba
          simp [freedInd, haf]
        · have hne : MemEvent.releaseViaFreeNativeBuffer a ≠
              MemEvent.releaseViaFreeNativeBuffer b := by
            intro hc
            exact hba (by injection hc with hv; exact hv.symm)
          simp [freedInd, hne, List.mem_cons, hba]
    · rw [if_neg hal] at h; exact absurd h (by simp)
  | releaseViaDefaultDealloc a =>
    exact absurd h (by simp [memStep])

theorem runMem_inv (tr : List MemEvent) :
    ∀ m0 m : MemState, MemWf m0 → runMem m0 tr = some m →
      MemWf m ∧ (∀ b : Nat, MemEvent.releaseViaDefaultDealloc b ∉ tr) ∧
        ∀ b : Nat, freedInd m0 b + relCount tr b = freedInd m b := by
  induction tr with
  | nil =>
    intro m0 m hw h
    simp only [runMem, Option.some.injEq] at h
    rw [← h]
    exact ⟨hw, by simp, fun b => by simp [relCount]⟩
  | cons e rest ih =>
    intro m0 m hw h
    unfold runMem at h
    cases he : memStep m0 e with
    | none => rw [he] at h; exact absurd h (by simp)
    | some m1 =>
      rw [he] at h
      obtain ⟨hw1, hnd1, hcnt1⟩ := memStep_inv m0 m1 e hw he
      obtain ⟨hwm, hndr, hcntr⟩ := ih m1 m hw1 h
      refine ⟨hwm, ?_, ?_⟩
      · intro b
        simp only [List.mem_cons]
        push_neg
        exact ⟨(hnd1 b).symm, hndr b⟩
      · intro b
        have h1 := hcnt1 b
        have h2 := hcntr b
        simp only [relCount]
        omega

/-- C1: the bridge's respond path completes exactly one outstanding Query per
identifier: a response to an outstanding identifier is delivered once through the
`respond` trampoline and removes exactly that identifier, after which a second
response to the same identifier — like any response to an identifier that was
never issued — is detected and reported as a protocol violation rather than
silently forwarded. -/
theorem respondToQuery_exactly_once {E : Type} (g : Int × CStr → E) (c : Correlator)
    (hnd : c.outstanding.Nodup) (queryID : Int) (msg msg2 : CStr)
    (hq : queryID ∈ c.outstanding) :
    respondToQuery (some g) c queryID msg =
        RespondResult.delivered (g (queryID, msg)) ⟨c.outstanding.erase queryID⟩ ∧
      (c.outstanding.erase queryID).length + 1 = c.outstanding.length ∧
      respondToQuery (some g) ⟨c.outstanding.erase queryID⟩ queryID msg2 =
        RespondResult.protocolViolation queryID ∧
      ∀ c2 : Correlator, queryID ∉ c2.outstanding →
        respondToQuery (some g) c2 queryID msg = RespondResult.protocolViolation queryID := by
  refine ⟨?_, List.length_erase_add_one hq, ?_, ?_⟩
  · simp [respondToQuery, hq, respond, CFunPtr.call]
  · have hout : queryID ∉ c.outstanding.erase queryID := fun hc =>
      ((hnd.mem_erase_iff).mp hc).1 rfl
    simp [respondToQuery, hout]
  · intro c2 h2
    simp [respondToQuery, h2]

theorem respondToQuery_exactly_once_witness :
    (([7] : List Int).Nodup ∧ (7 : Int) ∈ ([7] : List Int)) ∧
      (respondToQuery (some (fun p : Int × CStr => p)) ⟨[7]⟩ 7 CStr.null =
          RespondResult.delivered ((7 : Int), CStr.null) ⟨([7] : List Int).erase 7⟩ ∧
        (([7] : List Int).erase 7).length + 1 = ([7] : List Int).length ∧
        respondToQuery (some (fun p : Int × CStr => p)) ⟨([7] : List Int).erase 7⟩ 7 CStr.null =
          RespondResult.protocolViolation 7 ∧
        ∀ c2 : Correlator, (7 : Int) ∉ c2.outstanding →
          respondToQuery (some (fun p : Int × CStr => p)) c2 7 CStr.null =
            RespondResult.protocolViolation 7) :=
  ⟨⟨by decide, by decide⟩,
    respondToQuery_exactly_once (fun p => p) ⟨[7]⟩ (by decide) 7 CStr.null CStr.null (by decide)⟩

/-- C2: in every valid allocator-boundary trace, a cross-boundary buffer
allocated by the backend's native allocator is never released through the other
side's default deallocation primitive, is released at most once, and — once it
shows up as freed — was released exactly once, through the `freeNativeBuffer`
(`cppHeapFree`) capability; a still-live buffer has never been released. -/
theorem allocatorBoundary_release_exactly_once (tr : List MemEvent) (m : MemState) (b : Nat)
    (h : runMem MemState.init tr = some m) :
    MemEvent.releaseViaDefaultDealloc b ∉ tr ∧
      relCount tr b ≤ 1 ∧
      (b ∈ m.freed → relCount tr b = 1) ∧
      (b ∈ m.live → relCount tr b = 0) := by
  have hwf : MemWf MemState.init :=
    ⟨List.nodup_nil, List.nodup_nil, by intro b hb; simp [MemState.init] at hb⟩
  obtain ⟨hwm, hnd, hcnt⟩ := runMem_inv tr MemState.init m hwf h
  have hc := hcnt b
  have h0 : freedInd MemState.init b = 0 := by simp [freedInd, MemState.init]
  rw [h0] at hc
  refine ⟨hnd b, ?_, ?_, ?_⟩
  · have hle : freedInd m b ≤ 1 := by unfold freedInd; split <;> omega
    omega
  · intro hbf
    have h1 : freedInd m b = 1 := by simp [freedInd, hbf]
    omega
  · intro hbl
    have hnf : b ∉ m.freed := hwm.2.2 b hbl
    have h1 : freedInd m b = 0 := by simp [freedInd, hnf]
    omega

theorem allocatorBoundary_release_exactly_once_witness :
    runMem MemState.init [MemEvent.allocNative 0, MemEvent.releaseViaFreeNativeBuffer 0] =
        some ⟨[], [0]⟩ ∧
      (MemEvent.releaseViaDefaultDealloc 0 ∉
          [MemEvent.allocNative 0, MemEvent.releaseViaFreeNativeBuffer 0] ∧
        relCount [MemEvent.allocNative 0, MemEvent.releaseViaFreeNativeBuffer 0] 0 ≤ 1 ∧
        ((0 : Nat) ∈ (⟨[], [0]⟩ : MemState).freed →
          relCount [MemEvent.allocNative 0, MemEvent.releaseViaFreeNativeBuffer 0] 0 = 1) ∧
        ((0 : Nat) ∈ (⟨[], [0]⟩ : MemState).live →
          relCount [MemEvent.allocNative 0, MemEvent.releaseViaFreeNativeBuffer 0] 0 = 0)) :=
  ⟨by decide, allocatorBoundary_release_exactly_once _ _ 0 (by decide)⟩

/-- C3: the `getSaveFilename` trampoline returns exactly the value the shell
callback produced, and that value is either a chosen-path buffer — which, once it
has crossed the boundary, can be passed verbatim to the release capability
without error — or the null cancellation sentinel, in which case no buffer
crosses and there is nothing to release. -/
theorem getSaveFilename_save_contract (g : CStr → CStr) (suggested : CStr) (m : MemState)
    (b : Nat) (hl : b ∉ m.live) (hf : b ∉ m.freed) :
    getSaveFilename (some g) suggested = some (g suggested) ∧
      (g suggested = CStr.null → saveDialogAlloc m b (g suggested) = some m) ∧
      ∀ p : String, g suggested = CStr.str p →
        saveDialogAlloc m b (g suggested) = some ⟨b :: m.live, m.freed⟩ ∧
          memStep ⟨b :: m.live, m.freed⟩ (MemEvent.releaseViaFreeNativeBuffer b) =
            some ⟨(b :: m.live).erase b, b :: m.freed⟩ := by
  refine ⟨rfl, ?_, ?_⟩
  · intro hnull
    rw [hnull]
    rfl
  · intro p hp
    constructor
    · rw [hp]
      simp [saveDialogAlloc, memStep, hl, hf]
    · simp [memStep]

theorem getSaveFilename_save_contract_witness :
    ((0 : Nat) ∉ MemState.init.live ∧ (0 : Nat) ∉ MemState.init.freed) ∧
      (getSaveFilename (some (fun _ => CStr.str "chosen")) (CStr.str "report.txt") =
          some (CStr.str "chosen") ∧
        (CStr.str "chosen" = CStr.null →
          saveDialogAlloc MemState.init 0 (CStr.str "chosen") = some MemState.init) ∧
        ∀ p : String, CStr.str "chosen" = CStr.str p →
          saveDialogAlloc MemState.init 0 (CStr.str "chosen") =
              some ⟨0 :: MemState.init.live, MemState.init.freed⟩ ∧
            memStep ⟨0 :: MemState.init.live, MemState.init.freed⟩
                (MemEvent.releaseViaFreeNativeBuffer 0) =
              some ⟨(0 :: MemState.init.live).erase 0, 0 :: MemState.init.freed⟩) :=
  ⟨⟨by decide, by decide⟩,
    getSaveFilename_save_contract (fun _ => CStr.str "chosen") (CStr.str "report.txt")
      MemState.init 0 (by decide) (by decide)⟩

/-- C4: `serve` accepts exactly the five callback slots plus a locale string in
the header's order (`cppHeapFreeFn`, `pushNotificationsFn`, `responseFn`,
`notifyUserFn`, `preferredLocale`, `getSaveFilenameFn`), wires them into the
CallbackTable slot by slot, returns no C-level value (`Unit`), installs the given
locale, and only yields an outcome in which the backend has terminated — the
call blocks until the backend's processing of its script is over. -/
theorem serve_contract (cppHeapFreeFn : cppHeapFree ShellEff)
    (pushNotificationsFn : pushNotificationsCallback ShellEff)
    (responseFn : responseCallback ShellEff) (notifyUserFn : notifyUserCallback ShellEff)
    (preferredLocale : CStr) (getSaveFilenameFn : getSaveFilenameCallback)
    (backendScript : List BackendAction) (sh : ShellState) :
    serve cppHeapFreeFn pushNotificationsFn responseFn notifyUserFn preferredLocale
        getSaveFilenameFn backendScript sh =
      ⟨(), true, preferredLocale,
        runActions
          ⟨cppHeapFreeFn, pushNotificationsFn, responseFn, notifyUserFn, getSaveFilenameFn⟩
          backendScript sh⟩ ∧
    (serve cppHeapFreeFn pushNotificationsFn responseFn notifyUserFn preferredLocale
        getSaveFilenameFn backendScript sh).ret = () ∧
    (serve cppHeapFreeFn pushNotificationsFn responseFn notifyUserFn preferredLocale
        getSaveFilenameFn backendScript sh).backendTerminated = true ∧
    (serve cppHeapFreeFn pushNotificationsFn responseFn notifyUserFn preferredLocale
        getSaveFilenameFn backendScript sh).localeInstalled = preferredLocale :=
  ⟨rfl, rfl, rfl, rfl⟩

/-- C5: delivering any sequence of push notifications through the `pushNotify`
trampoline makes the shell observe exactly the issued sequence, in the same
relative order, appended to its invocation log; each `pushNotify` call performs
exactly one invocation of the registered callback with the given message. -/
theorem pushNotification_order_preserved (msgs log : List CStr) :
    deliverPushes (some recordPush) msgs log = some (log ++ msgs) ∧
      ∀ (E : Type) (g : CStr → E) (m : CStr), pushNotify (some g) m = some (g m) :=
  ⟨deliverPushes_record msgs log, fun _ _ _ => rfl⟩

/-- C6: a second call of the dispatcher after a session has been installed fails
fast with the reported `alreadyServing` startup error, processes nothing, and
leaves the first session's CallbackTable (and locale) unchanged. -/
theorem serve_second_call_rejected (t0 t : CallbackTable) (loc0 loc : CStr)
    (p : ProcessState) (script : List BackendAction) (sh : ShellState)
    (h : p.installed = some (t0, loc0)) :
    dispatcherServe t loc p script sh =
        (Except.error StartupError.alreadyServing, p, sh) ∧
      (dispatcherServe t loc p script sh).2.1.installed = some (t0, loc0) := by
  have h2 : dispatcherServe t loc p script sh =
      (Except.error StartupError.alreadyServing, p, sh) := by
    simp only [dispatcherServe, h]
  exact ⟨h2, by rw [h2]; exact h⟩

theorem serve_second_call_rejected_witness :
    (ProcessState.mk (some (sampleTable, CStr.null))).installed =
        some (sampleTable, CStr.null) ∧
      (dispatcherServe sampleTable CStr.null
          (ProcessState.mk (some (sampleTable, CStr.null))) [] ShellState.init =
        (Except.error StartupError.alreadyServing,
          ProcessState.mk (some (sampleTable, CStr.null)), ShellState.init) ∧
      (dispatcherServe sampleTable CStr.null
          (ProcessState.mk (some (sampleTable, CStr.null))) [] ShellState.init).2.1.installed =
        some (sampleTable, CStr.null)) :=
  ⟨rfl,
    serve_second_call_rejected sampleTable sampleTable CStr.null CStr.null
      (ProcessState.mk (some (sampleTable, CStr.null))) [] ShellState.init rfl⟩

/-- C7: if any of the five callback slots passed to the dispatcher is unusable
(null), startup fails fast with the single fatal `unusableSlot` error, no session
is installed, and the shell state is returned untouched — no event processing
begins. -/
theorem serve_unusable_slot_fails_fast (t : CallbackTable) (loc : CStr)
    (script : List BackendAction) (sh : ShellState) (h : slotsUsable t = false) :
    dispatcherServe t loc ⟨none⟩ script sh =
      (Except.error StartupError.unusableSlot, ⟨none⟩, sh) := by
  simp [dispatcherServe, h]

theorem serve_unusable_slot_fails_fast_witness :
    slotsUsable badTable = false ∧
      dispatcherServe badTable CStr.null ⟨none⟩ [] ShellState.init =
        (Except.error StartupError.unusableSlot, ⟨none⟩, ShellState.init) :=
  ⟨rfl, serve_unusable_slot_fails_fast badTable CStr.null [] ShellState.init rfl⟩

/-- C8: the `notifyUser` trampoline has a delivery contract identical to
`pushNotify`: for every callback pointer and message the two trampolines produce
equal results, and for a wired callback each performs exactly one fire-and-forget
invocation of the callback with the given message. -/
theorem notifyUser_delivery_eq_pushNotify (E : Type) (f : CFunPtr CStr E) (msg : CStr) :
    notifyUser f msg = pushNotify f msg ∧
      ∀ g : CStr → E,
        notifyUser (some g) msg = some (g msg) ∧ pushNotify (some g) msg = some (g msg) :=
  ⟨rfl, fun _ => ⟨rfl, rfl⟩⟩

/-- C9: the locale is set exactly once, at `serve` invocation, and is read-only
for the backend's lifetime: after any sequence of bridge operations (outbound
backend actions and inbound `backendCall`/`handleURI`/`systemOpen` calls) the
session's locale is still the one passed at startup. -/
theorem locale_immutable (t : CallbackTable) (preferredLocale : CStr) (sh : ShellState)
    (ops : List BridgeOp) (s' : Session)
    (h : applyOps (startSession t preferredLocale sh) ops = some s') :
    s'.locale = preferredLocale ∧
      (startSession t preferredLocale sh).locale = preferredLocale :=
  ⟨applyOps_locale ops (startSession t preferredLocale sh) s' h, rfl⟩

theorem locale_immutable_witness :
    applyOps (startSession sampleTable (CStr.str "en") ShellState.init)
        [BridgeOp.backendAct (BackendAction.push CStr.null), BridgeOp.inHandleURI CStr.null] =
      some ⟨sampleTable, CStr.str "en", ⟨[CStr.null], [], []⟩, [], [CStr.null], []⟩ ∧
    ((⟨sampleTable, CStr.str "en", ⟨[CStr.null], [], []⟩, [], [CStr.null], []⟩ :
        Session).locale = CStr.str "en" ∧
      (startSession sampleTable (CStr.str "en") ShellState.init).locale = CStr.str "en") :=
  ⟨rfl,
    locale_immutable sampleTable (CStr.str "en") ShellState.init
      [BridgeOp.backendAct (BackendAction.push CStr.null), BridgeOp.inHandleURI CStr.null]
      ⟨sampleTable, CStr.str "en", ⟨[CStr.null], [], []⟩, [], [CStr.null], []⟩ rfl⟩

/-- C10: every trampoline of the header invokes its callback-pointer argument
without any null check: with a null slot the call has no defined result (`none`),
and with a wired slot it is the plain single invocation of the callback — the
non-null invariant is a caller obligation the bridge itself never enforces. -/
theorem trampolines_no_null_check (E : Type) (msg suggested : CStr) (queryID : Int) :
    @pushNotify E none msg = none ∧
      @respond E none queryID msg = none ∧
      @notifyUser E none msg = none ∧
      getSaveFilename none suggested = none ∧
      (∀ g : CStr → E, @pushNotify E (some g) msg = some (g msg)) ∧
      (∀ g : Int × CStr → E, @respond E (some g) queryID msg = some (g (queryID, msg))) ∧
      (∀ g : CStr → E, @notifyUser E (some g) msg = some (g msg)) ∧
      ∀ g : CStr → CStr, getSaveFilename (some g) suggested = some (g suggested) :=
  ⟨rfl, rfl, rfl, rfl, fun _ => rfl, fun _ => rfl, fun _ => rfl, fun _ => rfl⟩

end Libserver
